import Mathlib

/-!
# pkg/services/apiserver/options/options.go

A shallow embedding of `Options.Validate`, `Options.ApplyTo` and the
`fakeListener` of the Go package `options`, and the properties proved of them.

Conventions of the embedding

* A Go `error` is `Option Error`; `none` is the nil error.  A `[]error` is a
  `List Error`; the nil slice and the empty slice are both `[]` (the source only
  ever tests `len(errs) != 0`).
* The four option groups held by `Options` are non-nil, as `NewOptions` builds
  them.
* The methods of the option groups (`Validate`, `ApplyTo`) and the constant
  `StorageTypeEtcd` are declared outside options.go; they are parameters
  (`Validators`, `Framework`).
* `net.Pipe` belongs to the Go standard library; its ends are modelled after
  net/pipe.go, where `Close` returns nil on every call. Any other `net.Conn` is an
  object with an arbitrary sequence of `Close` results.
* Calls are recorded in a log so that the order of evaluation can be stated.
-/

namespace options

/-! ## Data model -/

/-- A non-nil Go error value. -/
structure Error where
  msg : String
deriving DecidableEq, Repr

/-- The fields of an option group or of the server configuration whose schema is
external to options.go. -/
abbrev Fields := List String

/-- A reference to a `net.Conn` object held in the `World`. -/
abbrev Conn := Nat

/-- Go: `type fakeListener struct { server net.Conn; client net.Conn }`. -/
structure fakeListener where
  server : Conn
  client : Conn
deriving DecidableEq, Repr

/-- A non-nil value of the interface `net.Listener`: a `*fakeListener` or any
other implementation (identified by a number). -/
inductive Listener where
  | fake (f : fakeListener)
  | other (id : Nat)
deriving DecidableEq, Repr

/-- The group `ExtraOptions`; `DevMode` is the only field options.go reads. -/
structure ExtraOptions where
  DevMode : Bool
  fields : Fields
deriving DecidableEq, Repr

/-- Go: `type StorageType string`. -/
abbrev StorageType := String

/-- The group `StorageOptions`; `StorageType` is the only field options.go reads. -/
structure StorageOptions where
  StorageType : StorageType
  fields : Fields
deriving DecidableEq, Repr

/-- The group `AggregatorServerOptions`. -/
structure AggregatorServerOptions where
  fields : Fields
deriving DecidableEq, Repr

/-- The `SecureServing` member of `genericoptions.RecommendedOptions`; `Listener`
is the only field options.go writes (`none` is the nil interface). -/
structure SecureServingOptions where
  Listener : Option Listener
  fields : Fields
deriving DecidableEq, Repr

/-- The part of `genericoptions.RecommendedOptions` that options.go touches. -/
structure RecommendedOptions where
  SecureServing : SecureServingOptions
  Authentication : Fields
  Etcd : Fields
  fields : Fields
deriving DecidableEq, Repr

/-- Go: `type Options struct`, with its four groups. -/
structure Options where
  RecommendedOptions : RecommendedOptions
  AggregatorOptions : AggregatorServerOptions
  StorageOptions : StorageOptions
  ExtraOptions : ExtraOptions
deriving DecidableEq, Repr

/-! ## Options.Validate -/

/-- The six sub-validators that `Options.Validate` can invoke. -/
inductive Group where
  | Extra
  | Storage
  | Aggregator
  | SecureServing
  | Authentication
  | Etcd
deriving DecidableEq, Repr

/-- What options.go uses in `Validate` and is declared elsewhere: the constant
`StorageTypeEtcd` and the `Validate` method of each group, an arbitrary function
from the group to its error list. -/
structure Validators where
  StorageTypeEtcd : StorageType
  Extra : ExtraOptions → List Error
  Storage : StorageOptions → List Error
  Aggregator : AggregatorServerOptions → List Error
  SecureServing : SecureServingOptions → List Error
  Authentication : Fields → List Error
  Etcd : Fields → List Error

/-- The outcome of one run of `Options.Validate`: the sub-validators invoked, in
order, and the returned error list. -/
structure ValidateRun where
  calls : List Group
  errs : List Error
deriving DecidableEq, Repr

/-- Go: `if errs := g.Validate(); len(errs) != 0 { return errs }`, followed by the
rest of the function body. `calls` is the log so far. -/
def check (g : Group) (errs : List Error) (calls : List Group)
    (rest : List Group → ValidateRun) : ValidateRun :=
  if errs.length ≠ 0 then ⟨calls ++ [g], errs⟩ else rest (calls ++ [g])

/-- Go: `func (o *Options) Validate() []error` (lines 41-73). -/
def Options.Validate (d : Validators) (o : Options) : ValidateRun :=
  check .Extra (d.Extra o.ExtraOptions) [] fun calls =>
  check .Storage (d.Storage o.StorageOptions) calls fun calls =>
  check .Aggregator (d.Aggregator o.AggregatorOptions) calls fun calls =>
  check .SecureServing (d.SecureServing o.RecommendedOptions.SecureServing) calls fun calls =>
  let etcdStep : List Group → ValidateRun := fun calls =>
    if o.StorageOptions.StorageType = d.StorageTypeEtcd then
      check .Etcd (d.Etcd o.RecommendedOptions.Etcd) calls fun calls => ⟨calls, []⟩
    else
      ⟨calls, []⟩
  if o.ExtraOptions.DevMode then
    check .Authentication (d.Authentication o.RecommendedOptions.Authentication) calls etcdStep
  else
    etcdStep calls

/-! ### The specification side of the validation pipeline -/

/-- The groups the specification has `Validate` consider, in the fixed order:
Authentication only in dev mode, Etcd only for the etcd storage type. -/
def considered (d : Validators) (o : Options) : List Group :=
  [Group.Extra, Group.Storage, Group.Aggregator, Group.SecureServing]
    ++ (if o.ExtraOptions.DevMode then [Group.Authentication] else [])
    ++ (if o.StorageOptions.StorageType = d.StorageTypeEtcd then [Group.Etcd] else [])

/-- The error list group `g` reports for the options `o`. -/
def report (d : Validators) (o : Options) : Group → List Error
  | .Extra => d.Extra o.ExtraOptions
  | .Storage => d.Storage o.StorageOptions
  | .Aggregator => d.Aggregator o.AggregatorOptions
  | .SecureServing => d.SecureServing o.RecommendedOptions.SecureServing
  | .Authentication => d.Authentication o.RecommendedOptions.Authentication
  | .Etcd => d.Etcd o.RecommendedOptions.Etcd

/-- The first non-empty list of a sequence of error lists, `[]` when there is none. -/
def firstNonEmpty : List (List Error) → List Error
  | [] => []
  | l :: ls => if l.length ≠ 0 then l else firstNonEmpty ls

/-- The initial segment of `gs` that ends at the first group whose report is
non-empty; all of `gs` when every report is empty. -/
def throughFirstFailure (rep : Group → List Error) : List Group → List Group
  | [] => []
  | g :: gs => if (rep g).length ≠ 0 then [g] else g :: throughFirstFailure rep gs

/-- The pipeline of guarded steps over a list of groups: each group is checked in
turn and the first non-empty report is returned. -/
def runChecks (rep : Group → List Error) : List Group → List Group → ValidateRun
  | [], calls => ⟨calls, []⟩
  | g :: gs, calls => check g (rep g) calls (runChecks rep gs)

/-! ## The connections and the fake listener -/

/-- A `net.Conn` object as far as `Close` is concerned: `closeResult k` is what
its `Close` returns when `k` calls of `Close` came before, and `closeCalls` counts
the calls made so far. -/
structure ConnObj where
  closeResult : Nat → Option Error
  closeCalls : Nat

/-- An entry of the call log. -/
inductive Call where
  | NewResourceManager (root : String)
  | ExtraOptions_ApplyTo (err : Option Error)
  | newFakeListener (f : fakeListener)
  | SecureServing_ApplyTo (err : Option Error)
  | Authentication_ApplyTo (err : Option Error)
  | Listener_Close (id : Nat) (err : Option Error)
  | Conn_Close (c : Conn) (err : Option Error)
deriving DecidableEq, Repr

/-- The state outside the options and the server configuration: the `net.Conn`
objects by reference, the next unused reference, and the log of calls. -/
structure World where
  conns : Conn → ConnObj
  next : Conn
  log : List Call

/-- Append a call to the log. -/
def World.record (w : World) (c : Call) : World :=
  { w with log := w.log ++ [c] }

/-- Whether `Close` has been called on the connection `c`. For an end of a
`net.Pipe` this says that the end is closed (its `localDone` channel is closed by
the first `Close`). -/
def World.closed (w : World) (c : Conn) : Bool :=
  (w.conns c).closeCalls != 0

/-- An end of `net.Pipe()` (Go standard library, net/pipe.go):
`func (p *pipe) Close() error { p.once.Do(func() { close(p.localDone) }); return nil }`
returns nil on every call. -/
def pipeEnd : ConnObj :=
  { closeResult := fun _ => none, closeCalls := 0 }

/-- Go: `net.Pipe()`, which creates two fresh connected ends. -/
def World.Pipe (w : World) : (Conn × Conn) × World :=
  ((w.next, w.next + 1),
   { w with
     conns := Function.update (Function.update w.conns w.next pipeEnd) (w.next + 1) pipeEnd
     next := w.next + 2 })

/-- Go: `c.Close()` on a `net.Conn`: the call is logged with its result and
counted on the object. -/
def Conn.Close (c : Conn) (w : World) : Option Error × World :=
  let obj := w.conns c
  let err := obj.closeResult obj.closeCalls
  (err,
   { w with
     conns := Function.update w.conns c { obj with closeCalls := obj.closeCalls + 1 }
     log := w.log ++ [Call.Conn_Close c err] })

/-- Go: `func newFakeListener() *fakeListener` (lines 113-119). -/
def newFakeListener (w : World) : fakeListener × World :=
  let p := w.Pipe
  ({ server := p.1.1, client := p.1.2 }, p.2)

/-- Go: `func (f *fakeListener) Accept() (net.Conn, error)` (lines 121-123). -/
def fakeListener.Accept (f : fakeListener) (w : World) : (Conn × Option Error) × World :=
  ((f.server, none), w)

/-- Go: `func (f *fakeListener) Close() error` (lines 125-130). -/
def fakeListener.Close (f : fakeListener) (w : World) : Option Error × World :=
  match Conn.Close f.client w with
  | (some err, w1) => (some err, w1)
  | (none, w1) => Conn.Close f.server w1

/-- Go: `net.TCPAddr`. -/
structure TCPAddr where
  IP : List Nat
  Port : Nat
  Zone : String
deriving DecidableEq, Repr

/-- Go: `func (f *fakeListener) Addr() net.Addr` (lines 132-134). -/
def fakeListener.Addr (_f : fakeListener) : TCPAddr :=
  { IP := [127, 0, 0, 1], Port := 3000, Zone := "" }

/-! ## Options.ApplyTo -/

/-- Go: `genericapiserver.SecureServingInfo`, of which options.go reads `Listener`. -/
structure SecureServingInfo where
  Listener : Option Listener
  fields : Fields
deriving DecidableEq, Repr

/-- Go: `genericapiserver.RecommendedConfig`, the part options.go touches or hands
on. `AggregatedDiscoveryGroupManager` holds the API root the manager was created
for; `none` is nil throughout. -/
structure RecommendedConfig where
  AggregatedDiscoveryGroupManager : Option String
  SecureServing : Option SecureServingInfo
  LoopbackClientConfig : Option Fields
  Authentication : Fields
  OpenAPIConfig : Option Fields
  fields : Fields
deriving DecidableEq, Repr

/-- What `o.ExtraOptions.ApplyTo(serverConfig)` leaves behind. -/
structure ExtraApplied where
  fields : Fields
  serverConfig : RecommendedConfig
  err : Option Error

/-- What `SecureServing.ApplyTo(&serverConfig.SecureServing,
&serverConfig.LoopbackClientConfig)` leaves behind. -/
structure SecureServingApplied where
  options : SecureServingOptions
  SecureServing : Option SecureServingInfo
  LoopbackClientConfig : Option Fields
  err : Option Error

/-- What `Authentication.ApplyTo(&serverConfig.Authentication,
serverConfig.SecureServing, serverConfig.OpenAPIConfig)` leaves behind. -/
structure AuthenticationApplied where
  options : Fields
  Authentication : Fields
  SecureServing : Option SecureServingInfo
  OpenAPIConfig : Option Fields
  err : Option Error

/-- What options.go calls in `ApplyTo` and is declared elsewhere: the `ApplyTo`
methods of the groups, arbitrary functions of their receiver and of the
configuration they are handed, which may rewrite both; and `Close` of a listener
that is not a `fakeListener`. The `ApplyTo` of `ExtraOptions` may rewrite the
fields of its group other than the mode flag `DevMode`. None of these steps
operates on the connections. -/
structure Framework where
  ExtraOptions_ApplyTo : ExtraOptions → RecommendedConfig → ExtraApplied
  SecureServing_ApplyTo :
    SecureServingOptions → Option SecureServingInfo → Option Fields → SecureServingApplied
  Authentication_ApplyTo :
    Fields → Fields → Option SecureServingInfo → Option Fields → AuthenticationApplied
  Listener_Close : Nat → Option Error

/-- Go: `l.Close()` on a `net.Listener`, dispatched on the dynamic type. -/
def Listener.Close (fw : Framework) : Listener → World → Option Error × World
  | .fake f, w => f.Close w
  | .other id, w => (fw.Listener_Close id, w.record (Call.Listener_Close id (fw.Listener_Close id)))

/-- How a call of `ApplyTo` ends: it returns an error value (nil on success), or
it panics on a nil dereference. -/
inductive Outcome where
  | returned (err : Option Error)
  | panicked
deriving DecidableEq, Repr

/-- The state `ApplyTo` works on and its outcome. -/
structure ApplyRun where
  options : Options
  serverConfig : RecommendedConfig
  world : World
  outcome : Outcome

/-- Lines 98-105 of `ApplyTo`: outside dev mode close the listener found on the
configuration and set `serverConfig.SecureServing` to nil. -/
def applyTeardown (fw : Framework) (o : Options) (serverConfig : RecommendedConfig)
    (w : World) : ApplyRun :=
  if !o.ExtraOptions.DevMode then
    match serverConfig.SecureServing with
    | none => ⟨o, serverConfig, w, .panicked⟩
    | some info =>
      match info.Listener with
      | none => ⟨o, serverConfig, w, .panicked⟩
      | some l =>
        match Listener.Close fw l w with
        | (some err, w1) => ⟨o, serverConfig, w1, .returned (some err)⟩
        | (none, w1) => ⟨o, { serverConfig with SecureServing := none }, w1, .returned none⟩
  else
    ⟨o, serverConfig, w, .returned none⟩

/-- Lines 90-96 of `ApplyTo`, followed by the teardown: in dev mode apply the
authentication options. -/
def applyAuthentication (fw : Framework) (o : Options) (serverConfig : RecommendedConfig)
    (w : World) : ApplyRun :=
  if o.ExtraOptions.DevMode then
    let r := fw.Authentication_ApplyTo o.RecommendedOptions.Authentication
      serverConfig.Authentication serverConfig.SecureServing serverConfig.OpenAPIConfig
    let o1 : Options :=
      { o with RecommendedOptions := { o.RecommendedOptions with Authentication := r.options } }
    let serverConfig1 : RecommendedConfig :=
      { serverConfig with
        Authentication := r.Authentication
        SecureServing := r.SecureServing
        OpenAPIConfig := r.OpenAPIConfig }
    let w1 := w.record (Call.Authentication_ApplyTo r.err)
    match r.err with
    | some err => ⟨o1, serverConfig1, w1, .returned (some err)⟩
    | none => applyTeardown fw o1 serverConfig1 w1
  else
    applyTeardown fw o serverConfig w

/-- Lines 86-88 of `ApplyTo`, followed by the rest: apply the secure-serving
options. -/
def applySecureServing (fw : Framework) (o : Options) (serverConfig : RecommendedConfig)
    (w : World) : ApplyRun :=
  let r := fw.SecureServing_ApplyTo o.RecommendedOptions.SecureServing
    serverConfig.SecureServing serverConfig.LoopbackClientConfig
  let o1 : Options :=
    { o with RecommendedOptions := { o.RecommendedOptions with SecureServing := r.options } }
  let serverConfig1 : RecommendedConfig :=
    { serverConfig with
      SecureServing := r.SecureServing
      LoopbackClientConfig := r.LoopbackClientConfig }
  let w1 := w.record (Call.SecureServing_ApplyTo r.err)
  match r.err with
  | some err => ⟨o1, serverConfig1, w1, .returned (some err)⟩
  | none => applyAuthentication fw o1 serverConfig1 w1

/-- Lines 82-84 of `ApplyTo`, followed by the rest: outside dev mode store a new
fake listener in `o.RecommendedOptions.SecureServing.Listener`. -/
def applyListener (fw : Framework) (o : Options) (serverConfig : RecommendedConfig)
    (w : World) : ApplyRun :=
  if !o.ExtraOptions.DevMode then
    let p := newFakeListener w
    let o1 : Options :=
      { o with RecommendedOptions :=
          { o.RecommendedOptions with SecureServing :=
              { o.RecommendedOptions.SecureServing with Listener := some (Listener.fake p.1) } } }
    applySecureServing fw o1 serverConfig (p.2.record (Call.newFakeListener p.1))
  else
    applySecureServing fw o serverConfig w

/-- Go: `func (o *Options) ApplyTo(serverConfig *genericapiserver.RecommendedConfig) error`
(lines 75-106). -/
def Options.ApplyTo (fw : Framework) (o : Options) (serverConfig : RecommendedConfig)
    (w : World) : ApplyRun :=
  let serverConfig0 : RecommendedConfig :=
    { serverConfig with AggregatedDiscoveryGroupManager := some "apis" }
  let w0 := w.record (Call.NewResourceManager "apis")
  let r := fw.ExtraOptions_ApplyTo o.ExtraOptions serverConfig0
  let o1 : Options := { o with ExtraOptions := { o.ExtraOptions with fields := r.fields } }
  let w1 := w0.record (Call.ExtraOptions_ApplyTo r.err)
  match r.err with
  | some err => ⟨o1, r.serverConfig, w1, .returned (some err)⟩
  | none => applyListener fw o1 r.serverConfig w1

/-! ### Derived notions used in the statements -/

/-- The result of the Extra apply step of `ApplyTo` (line 78). -/
def extraStep (fw : Framework) (o : Options) (serverConfig : RecommendedConfig) : ExtraApplied :=
  fw.ExtraOptions_ApplyTo o.ExtraOptions
    { serverConfig with AggregatedDiscoveryGroupManager := some "apis" }

/-- The listener held by the secure-serving options when line 86 is reached: the
configured one in dev mode, the new fake listener otherwise. -/
def listenerAtSecureServing (o : Options) (w : World) : Option Listener :=
  if o.ExtraOptions.DevMode then o.RecommendedOptions.SecureServing.Listener
  else some (Listener.fake (newFakeListener w).1)

/-- The result of the secure-serving apply step of `ApplyTo` (line 86), for a run
that reaches it. -/
def secureServingStep (fw : Framework) (o : Options) (serverConfig : RecommendedConfig)
    (w : World) : SecureServingApplied :=
  fw.SecureServing_ApplyTo
    { o.RecommendedOptions.SecureServing with Listener := listenerAtSecureServing o w }
    (extraStep fw o serverConfig).serverConfig.SecureServing
    (extraStep fw o serverConfig).serverConfig.LoopbackClientConfig

/-- The options when the Extra apply step has returned. -/
def optionsAfterExtra (fw : Framework) (o : Options) (serverConfig : RecommendedConfig) :
    Options :=
  { o with ExtraOptions := { o.ExtraOptions with fields := (extraStep fw o serverConfig).fields } }

/-- The world when line 86 is reached: the discovery manager and the Extra apply
step are logged, and outside dev mode the fake listener has been created. -/
def worldAtSecureServing (o : Options) (w : World) : World :=
  let w1 := (w.record (Call.NewResourceManager "apis")).record (Call.ExtraOptions_ApplyTo none)
  if o.ExtraOptions.DevMode then w1
  else (newFakeListener w1).2.record (Call.newFakeListener (newFakeListener w1).1)

/-- The options when the secure-serving apply step has returned. -/
def optionsAfterSecureServing (fw : Framework) (o : Options)
    (serverConfig : RecommendedConfig) (w : World) : Options :=
  { optionsAfterExtra fw o serverConfig with
    RecommendedOptions :=
      { o.RecommendedOptions with
        SecureServing := (secureServingStep fw o serverConfig w).options } }

/-- The server configuration when the secure-serving apply step has returned. -/
def configAfterSecureServing (fw : Framework) (o : Options)
    (serverConfig : RecommendedConfig) (w : World) : RecommendedConfig :=
  { (extraStep fw o serverConfig).serverConfig with
    SecureServing := (secureServingStep fw o serverConfig w).SecureServing
    LoopbackClientConfig := (secureServingStep fw o serverConfig w).LoopbackClientConfig }

/-- The world when the secure-serving apply step has returned. -/
def worldAfterSecureServing (fw : Framework) (o : Options)
    (serverConfig : RecommendedConfig) (w : World) : World :=
  (worldAtSecureServing o w).record
    (Call.SecureServing_ApplyTo (secureServingStep fw o serverConfig w).err)

/-- The calls logged during a run of `ApplyTo` started in the world `w`. -/
def callsOf (fw : Framework) (o : Options) (serverConfig : RecommendedConfig)
    (w : World) : List Call :=
  (Options.ApplyTo fw o serverConfig w).world.log.drop w.log.length

/-- The connection `c` behaves as an end of `net.Pipe`: its `Close` returns nil
on every call. -/
def World.isPipeEnd (w : World) (c : Conn) : Prop :=
  (w.conns c).closeResult = fun _ => none

/-! ### Scenarios on the fake listener -/

/-- The run `f := newFakeListener(); e1 := f.Close(); e2 := f.Close()`: the two
results and the final world. -/
def closeTwice (w : World) : Option Error × Option Error × World :=
  let p := newFakeListener w
  let c1 := p.1.Close p.2
  let c2 := p.1.Close c1.2
  (c1.1, c2.1, c2.2)

/-- The run `f.Close(); f.Accept()` on a fake listener: the result of `Close`,
the result of `Accept` and the final world. -/
def closeThenAccept (f : fakeListener) (w : World) :
    Option Error × (Conn × Option Error) × World :=
  let c := f.Close w
  let a := f.Accept c.2
  (c.1, a.1, a.2)

/-! ### Example inputs -/

/-- A world with no connection allocated and an empty log. -/
def exampleWorld : World :=
  { conns := fun _ => { closeResult := fun _ => none, closeCalls := 0 }, next := 0, log := [] }

/-- Options with the given mode flag and storage type, and no listener configured. -/
def exampleOptions (devMode : Bool) (storageType : StorageType) : Options :=
  { RecommendedOptions :=
      { SecureServing := { Listener := none, fields := [] }
        Authentication := [], Etcd := [], fields := [] }
    AggregatorOptions := { fields := [] }
    StorageOptions := { StorageType := storageType, fields := [] }
    ExtraOptions := { DevMode := devMode, fields := [] } }

/-- A server configuration with nothing installed. -/
def exampleConfig : RecommendedConfig :=
  { AggregatedDiscoveryGroupManager := none, SecureServing := none,
    LoopbackClientConfig := none, Authentication := [], OpenAPIConfig := none, fields := [] }

/-- Validators of which the Storage and the Etcd one report the given errors and
the others none, with the constant `StorageTypeEtcd` equal to "etcd". -/
def exampleValidators (storageErrs etcdErrs : List Error) : Validators :=
  { StorageTypeEtcd := "etcd"
    Extra := fun _ => [], Storage := fun _ => storageErrs, Aggregator := fun _ => []
    SecureServing := fun _ => [], Authentication := fun _ => [], Etcd := fun _ => etcdErrs }

/-- A framework whose apply steps succeed and leave their receivers unchanged; the
secure-serving step installs the listener of the options on the configuration. -/
def exampleFramework : Framework :=
  { ExtraOptions_ApplyTo := fun x c => { fields := x.fields, serverConfig := c, err := none }
    SecureServing_ApplyTo := fun s _ l =>
      { options := s, SecureServing := some { Listener := s.Listener, fields := [] },
        LoopbackClientConfig := l, err := none }
    Authentication_ApplyTo := fun a b i c =>
      { options := a, Authentication := b, SecureServing := i, OpenAPIConfig := c, err := none }
    Listener_Close := fun _ => none }

/-- The example framework with a secure-serving apply step that fails. -/
def secureServingFailing : Framework :=
  { exampleFramework with
    SecureServing_ApplyTo := fun s i l =>
      { options := s, SecureServing := i, LoopbackClientConfig := l,
        err := some { msg := "secure serving" } } }

theorem Validate_eq_runChecks (d : Validators) (o : Options) :
    Options.Validate d o = runChecks (report d o) (considered d o) [] := by
  cases hD : o.ExtraOptions.DevMode <;>
  by_cases hE : o.StorageOptions.StorageType = d.StorageTypeEtcd <;>
  simp [Options.Validate, considered, runChecks, report, hD, hE]

theorem runChecks_errs (rep : Group → List Error) (gs calls : List Group) :
    (runChecks rep gs calls).errs = firstNonEmpty (gs.map rep) := by
  induction gs generalizing calls with
  | nil => rfl
  | cons g gs ih =>
    by_cases h : (rep g).length = 0
    · simp [runChecks, check, firstNonEmpty, h, ih]
    · simp [runChecks, check, firstNonEmpty, h]

theorem runChecks_calls (rep : Group → List Error) (gs calls : List Group) :
    (runChecks rep gs calls).calls = calls ++ throughFirstFailure rep gs := by
  induction gs generalizing calls with
  | nil => simp [runChecks, throughFirstFailure]
  | cons g gs ih =>
    by_cases h : (rep g).length = 0
    · simp [runChecks, check, throughFirstFailure, h, ih]
    · simp [runChecks, check, throughFirstFailure, h]

theorem Validate_calls_eq (d : Validators) (o : Options) :
    (Options.Validate d o).calls = throughFirstFailure (report d o) (considered d o) := by
  rw [Validate_eq_runChecks, runChecks_calls]; simp

theorem firstNonEmpty_eq_nil (ls : List (List Error)) :
    firstNonEmpty ls = [] ↔ ∀ l ∈ ls, l = [] := by
  induction ls with
  | nil => simp [firstNonEmpty]
  | cons l ls ih =>
    by_cases h : l = []
    · simp [firstNonEmpty, h, ih]
    · have hl : l.length ≠ 0 := fun h0 => h (List.length_eq_zero.mp h0)
      simp [firstNonEmpty, h, hl]

theorem throughFirstFailure_initial (rep : Group → List Error) (gs : List Group) :
    throughFirstFailure rep gs <+: gs := by
  induction gs with
  | nil => simp [throughFirstFailure]
  | cons g gs ih =>
    by_cases h : (rep g).length = 0
    · simpa [throughFirstFailure, h] using (List.prefix_cons_inj g).mpr ih
    · simp [throughFirstFailure, h]

theorem throughFirstFailure_length (rep : Group → List Error) (gs : List Group)
    (k : Nat) (hk : k < gs.length) (hfail : rep gs[k] ≠ []) :
    (throughFirstFailure rep gs).length ≤ k + 1 := by
  induction gs generalizing k with
  | nil => simp at hk
  | cons g gs ih =>
    by_cases h : (rep g).length = 0
    · cases k with
      | zero => exact absurd (List.length_eq_zero.mp h) (by simpa using hfail)
      | succ k =>
        have hkt : k < gs.length := by simpa using hk
        have := ih k hkt (by simpa using hfail)
        simp [throughFirstFailure, h, this]
    · simp [throughFirstFailure, h]

theorem not_mem_throughFirstFailure (rep : Group → List Error) (gs : List Group)
    (hnd : gs.Nodup) (k j : Nat) (hk : k < gs.length) (hj : j < gs.length)
    (hfail : rep gs[k] ≠ []) (hkj : k < j) :
    gs[j] ∉ throughFirstFailure rep gs := by
  induction gs generalizing k j with
  | nil => simp at hk
  | cons g gs ih =>
    obtain ⟨j, rfl⟩ : ∃ i, j = i + 1 := ⟨j - 1, by omega⟩
    have hjt : j < gs.length := by simpa using hj
    have hne : gs[j] ≠ g := by
      intro h
      exact (List.nodup_cons.mp hnd).1 (h ▸ List.getElem_mem hjt)
    by_cases h : (rep g).length = 0
    · cases k with
      | zero => exact absurd (List.length_eq_zero.mp h) (by simpa using hfail)
      | succ k =>
        have hkt : k < gs.length := by simpa using hk
        have := ih (List.nodup_cons.mp hnd).2 k j hkt hjt (by simpa using hfail) (by omega)
        simp [throughFirstFailure, h, hne, this]
    · simp [throughFirstFailure, h, hne]

theorem considered_nodup (d : Validators) (o : Options) : (considered d o).Nodup := by
  cases hD : o.ExtraOptions.DevMode <;>
  by_cases hE : o.StorageOptions.StorageType = d.StorageTypeEtcd <;>
  simp [considered, hD, hE]

/-- Claim C1. `Validate` returns the report of the first group, in the order Extra,
Storage, Aggregator, SecureServing, Authentication (dev mode only), Etcd (etcd
storage type only), whose report is non-empty, and it returns the empty result
exactly when every considered group reports nothing. -/
theorem Validate_returns_first_nonempty (d : Validators) (o : Options) :
    (Options.Validate d o).errs = firstNonEmpty ((considered d o).map (report d o)) ∧
    ((Options.Validate d o).errs = [] ↔ ∀ g ∈ considered d o, report d o g = []) := by
  rw [Validate_eq_runChecks, runChecks_errs, firstNonEmpty_eq_nil]
  simp

/-- Claim C2. If the group at position `k` of the fixed order reports errors, then
the calls `Validate` makes are exactly the initial segment of the fixed order that
ends at the first failing group: at most `k + 1` calls, and no validator of a group
after position `k` is invoked. -/
theorem Validate_calls_stop_at_first_failure (d : Validators) (o : Options) (k : Nat)
    (hk : k < (considered d o).length) (hfail : report d o (considered d o)[k] ≠ []) :
    (Options.Validate d o).calls = throughFirstFailure (report d o) (considered d o) ∧
    (Options.Validate d o).calls <+: considered d o ∧
    (Options.Validate d o).calls.length ≤ k + 1 ∧
    ∀ j (hj : j < (considered d o).length), k < j →
      (considered d o)[j] ∉ (Options.Validate d o).calls := by
  rw [Validate_calls_eq]
  exact ⟨rfl, throughFirstFailure_initial _ _, throughFirstFailure_length _ _ k hk hfail,
    fun j hj hkj => not_mem_throughFirstFailure _ _ (considered_nodup d o) k j hk hj hfail hkj⟩

/-- Witness for C2: in dev mode with etcd storage the Storage validator (position
1) fails; two calls are made and the four later groups are not invoked. -/
theorem Validate_calls_stop_at_first_failure_witness :
    report (exampleValidators [{ msg := "storage" }] []) (exampleOptions true "etcd")
      Group.Storage ≠ [] ∧
    (Options.Validate (exampleValidators [{ msg := "storage" }] [])
      (exampleOptions true "etcd")).calls.length ≤ 1 + 1 ∧
    (considered (exampleValidators [{ msg := "storage" }] []) (exampleOptions true "etcd")).length
      = 6 :=
  ⟨by decide,
   (Validate_calls_stop_at_first_failure (exampleValidators [{ msg := "storage" }] [])
      (exampleOptions true "etcd") 1 (by decide) (by decide)).2.2.1,
   by decide⟩

/-- Counterexample to C3 as stated: outside dev mode with the etcd storage type and
the first four validators clean, the Etcd validator is invoked and its errors are
returned. -/
theorem Validate_nondev_etcd_counterexample :
    (exampleOptions false "etcd").ExtraOptions.DevMode = false ∧
    (exampleOptions false "etcd").StorageOptions.StorageType =
      (exampleValidators [] [{ msg := "etcd" }]).StorageTypeEtcd ∧
    (exampleValidators [] [{ msg := "etcd" }]).Extra (exampleOptions false "etcd").ExtraOptions
      = [] ∧
    (exampleValidators [] [{ msg := "etcd" }]).Storage
      (exampleOptions false "etcd").StorageOptions = [] ∧
    (exampleValidators [] [{ msg := "etcd" }]).Aggregator
      (exampleOptions false "etcd").AggregatorOptions = [] ∧
    (exampleValidators [] [{ msg := "etcd" }]).SecureServing
      (exampleOptions false "etcd").RecommendedOptions.SecureServing = [] ∧
    (Options.Validate (exampleValidators [] [{ msg := "etcd" }])
      (exampleOptions false "etcd")).calls
      = [Group.Extra, Group.Storage, Group.Aggregator, Group.SecureServing, Group.Etcd] ∧
    (Options.Validate (exampleValidators [] [{ msg := "etcd" }])
      (exampleOptions false "etcd")).errs = [{ msg := "etcd" }] ∧
    ¬ ((Options.Validate (exampleValidators [] [{ msg := "etcd" }])
          (exampleOptions false "etcd")).calls
        = [Group.Extra, Group.Storage, Group.Aggregator, Group.SecureServing] ∧
       (Options.Validate (exampleValidators [] [{ msg := "etcd" }])
          (exampleOptions false "etcd")).errs = []) := by
  decide

/-- Claim C3, amended. Outside dev mode with the etcd storage type, when the Extra,
Storage, Aggregator and SecureServing validators report nothing, `Validate` runs
those four checks and then the Etcd check, in that order, does not invoke the
Authentication validator, and returns what the Etcd validator reports. -/
theorem Validate_nondev_etcd_runs_etcd_check (d : Validators) (o : Options)
    (hDev : o.ExtraOptions.DevMode = false)
    (hEtcd : o.StorageOptions.StorageType = d.StorageTypeEtcd)
    (h1 : d.Extra o.ExtraOptions = [])
    (h2 : d.Storage o.StorageOptions = [])
    (h3 : d.Aggregator o.AggregatorOptions = [])
    (h4 : d.SecureServing o.RecommendedOptions.SecureServing = []) :
    (Options.Validate d o).calls
      = [Group.Extra, Group.Storage, Group.Aggregator, Group.SecureServing, Group.Etcd] ∧
    Group.Authentication ∉ (Options.Validate d o).calls ∧
    (Options.Validate d o).errs = d.Etcd o.RecommendedOptions.Etcd := by
  by_cases h6 : d.Etcd o.RecommendedOptions.Etcd = []
  · simp [Options.Validate, check, hDev, hEtcd, h1, h2, h3, h4, h6]
  · simp [Options.Validate, check, hDev, hEtcd, h1, h2, h3, h4, h6]

/-- Witness for the amended C3: with an Etcd validator that reports an error the
five calls are made and that error is returned. -/
theorem Validate_nondev_etcd_runs_etcd_check_witness :
    (exampleOptions false "etcd").ExtraOptions.DevMode = false ∧
    (Options.Validate (exampleValidators [] [{ msg := "etcd" }])
      (exampleOptions false "etcd")).calls
      = [Group.Extra, Group.Storage, Group.Aggregator, Group.SecureServing, Group.Etcd] ∧
    Group.Authentication ∉ (Options.Validate (exampleValidators [] [{ msg := "etcd" }])
      (exampleOptions false "etcd")).calls ∧
    (Options.Validate (exampleValidators [] [{ msg := "etcd" }])
      (exampleOptions false "etcd")).errs
      = (exampleValidators [] [{ msg := "etcd" }]).Etcd
          (exampleOptions false "etcd").RecommendedOptions.Etcd :=
  ⟨rfl, Validate_nondev_etcd_runs_etcd_check (exampleValidators [] [{ msg := "etcd" }])
    (exampleOptions false "etcd") rfl rfl rfl rfl rfl rfl⟩

/-! ## Lemmas on the connections and on the stages of Options.ApplyTo -/

theorem Conn_Close_fst (c : Conn) (w : World) :
    (Conn.Close c w).1 = (w.conns c).closeResult (w.conns c).closeCalls := rfl

theorem Conn_Close_log (c : Conn) (w : World) :
    (Conn.Close c w).2.log = w.log ++ [Call.Conn_Close c (Conn.Close c w).1] := rfl

theorem Conn_Close_closed_self (c : Conn) (w : World) :
    (Conn.Close c w).2.closed c = true := by
  simp [Conn.Close, World.closed]

theorem Conn_Close_closed_mono (c c1 : Conn) (w : World) (h : w.closed c1 = true) :
    (Conn.Close c w).2.closed c1 = true := by
  by_cases hc : c1 = c
  · subst hc; exact Conn_Close_closed_self _ _
  · simpa [Conn.Close, World.closed, Function.update_noteq hc] using h

theorem Conn_Close_isPipeEnd (c c1 : Conn) (w : World) (h : w.isPipeEnd c1) :
    (Conn.Close c w).2.isPipeEnd c1 := by
  by_cases hc : c1 = c
  · subst hc; simpa [Conn.Close, World.isPipeEnd] using h
  · simpa [Conn.Close, World.isPipeEnd, Function.update_noteq hc] using h

theorem Conn_Close_pipe (c : Conn) (w : World) (h : w.isPipeEnd c) :
    (Conn.Close c w).1 = none := by
  simp only [World.isPipeEnd] at h
  simp [Conn.Close, h]

theorem fakeListener_Close_pipe (f : fakeListener) (w : World)
    (hc : w.isPipeEnd f.client) (hs : w.isPipeEnd f.server) :
    (f.Close w).1 = none ∧
    (f.Close w).2.log =
      w.log ++ [Call.Conn_Close f.client none, Call.Conn_Close f.server none] ∧
    (f.Close w).2.closed f.client = true ∧ (f.Close w).2.closed f.server = true ∧
    (f.Close w).2.isPipeEnd f.client ∧ (f.Close w).2.isPipeEnd f.server := by
  have h1 : (Conn.Close f.client w).1 = none := Conn_Close_pipe _ _ hc
  have hs1 : (Conn.Close f.client w).2.isPipeEnd f.server := Conn_Close_isPipeEnd _ _ _ hs
  have hc1 : (Conn.Close f.client w).2.isPipeEnd f.client := Conn_Close_isPipeEnd _ _ _ hc
  have h2 : (Conn.Close f.server (Conn.Close f.client w).2).1 = none := Conn_Close_pipe _ _ hs1
  have hF : f.Close w = Conn.Close f.server (Conn.Close f.client w).2 := by
    unfold fakeListener.Close
    rcases hcc : Conn.Close f.client w with ⟨e, w1⟩
    rw [hcc] at h1
    simp only at h1
    subst h1
    rfl
  rw [hF]
  refine ⟨h2, ?_, ?_, Conn_Close_closed_self _ _, Conn_Close_isPipeEnd _ _ _ hc1,
    Conn_Close_isPipeEnd _ _ _ hs1⟩
  · rw [Conn_Close_log, Conn_Close_log, h1, h2]; simp
  · exact Conn_Close_closed_mono _ _ _ (Conn_Close_closed_self _ _)

theorem newFakeListener_isPipeEnd (w : World) :
    (newFakeListener w).2.isPipeEnd (newFakeListener w).1.client ∧
    (newFakeListener w).2.isPipeEnd (newFakeListener w).1.server ∧
    (newFakeListener w).2.closed (newFakeListener w).1.client = false ∧
    (newFakeListener w).2.closed (newFakeListener w).1.server = false ∧
    (newFakeListener w).2.log = w.log := by
  simp [newFakeListener, World.Pipe, World.isPipeEnd, World.closed, pipeEnd, Function.update]

@[simp] theorem record_conns (w : World) (c : Call) : (w.record c).conns = w.conns := rfl
@[simp] theorem record_next (w : World) (c : Call) : (w.record c).next = w.next := rfl
@[simp] theorem record_log (w : World) (c : Call) : (w.record c).log = w.log ++ [c] := rfl
@[simp] theorem record_closed (w : World) (c : Call) (x : Conn) :
    (w.record c).closed x = w.closed x := rfl
@[simp] theorem record_isPipeEnd (w : World) (c : Call) (x : Conn) :
    (w.record c).isPipeEnd x = w.isPipeEnd x := rfl
@[simp] theorem newFakeListener_record_fst (w : World) (c : Call) :
    (newFakeListener (w.record c)).1 = (newFakeListener w).1 := rfl
@[simp] theorem newFakeListener_record_snd (w : World) (c : Call) :
    (newFakeListener (w.record c)).2 = (newFakeListener w).2.record c := rfl


theorem ApplyTo_of_extra_fails (fw : Framework) (o : Options)
    (serverConfig : RecommendedConfig) (w : World) (e : Error)
    (h1 : (extraStep fw o serverConfig).err = some e) :
    Options.ApplyTo fw o serverConfig w =
      ⟨optionsAfterExtra fw o serverConfig, (extraStep fw o serverConfig).serverConfig,
        (w.record (Call.NewResourceManager "apis")).record (Call.ExtraOptions_ApplyTo (some e)),
        Outcome.returned (some e)⟩ := by
  simp only [extraStep] at h1
  simp only [Options.ApplyTo, h1, optionsAfterExtra, extraStep]

theorem ApplyTo_of_secureServing_fails (fw : Framework) (o : Options)
    (serverConfig : RecommendedConfig) (w : World) (e : Error)
    (h1 : (extraStep fw o serverConfig).err = none)
    (h2 : (secureServingStep fw o serverConfig w).err = some e) :
    Options.ApplyTo fw o serverConfig w =
      ⟨optionsAfterSecureServing fw o serverConfig w, configAfterSecureServing fw o serverConfig w,
        worldAfterSecureServing fw o serverConfig w, Outcome.returned (some e)⟩ := by
  simp only [extraStep] at h1
  cases hD : o.ExtraOptions.DevMode <;>
  · simp [secureServingStep, extraStep, listenerAtSecureServing, hD] at h2
    simp [Options.ApplyTo, h1, applyListener, hD, applySecureServing, h2,
      optionsAfterSecureServing, optionsAfterExtra, configAfterSecureServing,
      worldAfterSecureServing, worldAtSecureServing, secureServingStep, extraStep,
      listenerAtSecureServing]

theorem ApplyTo_of_secureServing_ok (fw : Framework) (o : Options)
    (serverConfig : RecommendedConfig) (w : World)
    (h1 : (extraStep fw o serverConfig).err = none)
    (h2 : (secureServingStep fw o serverConfig w).err = none) :
    Options.ApplyTo fw o serverConfig w =
      applyAuthentication fw (optionsAfterSecureServing fw o serverConfig w)
        (configAfterSecureServing fw o serverConfig w)
        (worldAfterSecureServing fw o serverConfig w) := by
  simp only [extraStep] at h1
  cases hD : o.ExtraOptions.DevMode <;>
  · simp [secureServingStep, extraStep, listenerAtSecureServing, hD] at h2
    simp [Options.ApplyTo, h1, applyListener, hD, applySecureServing, h2,
      optionsAfterSecureServing, optionsAfterExtra, configAfterSecureServing,
      worldAfterSecureServing, worldAtSecureServing, secureServingStep, extraStep,
      listenerAtSecureServing]

theorem callsOf_eq (fw : Framework) (o : Options) (serverConfig : RecommendedConfig)
    (w : World) (cs : List Call)
    (h : (Options.ApplyTo fw o serverConfig w).world.log = w.log ++ cs) :
    callsOf fw o serverConfig w = cs := by
  simp [callsOf, h]

theorem applyAuthentication_nondev (fw : Framework) (o : Options)
    (serverConfig : RecommendedConfig) (w : World) (hDev : o.ExtraOptions.DevMode = false) :
    applyAuthentication fw o serverConfig w = applyTeardown fw o serverConfig w := by
  simp [applyAuthentication, hDev]

theorem applyTeardown_fake_pipe (fw : Framework) (o : Options)
    (serverConfig : RecommendedConfig) (w : World) (i : SecureServingInfo) (f : fakeListener)
    (hDev : o.ExtraOptions.DevMode = false) (hS : serverConfig.SecureServing = some i)
    (hL : i.Listener = some (Listener.fake f))
    (hc : w.isPipeEnd f.client) (hs : w.isPipeEnd f.server) :
    applyTeardown fw o serverConfig w =
      ⟨o, { serverConfig with SecureServing := none }, (f.Close w).2, Outcome.returned none⟩ := by
  have h := (fakeListener_Close_pipe f w hc hs).1
  unfold applyTeardown
  simp only [hDev, hS, hL, Listener.Close]
  rcases hcl : f.Close w with ⟨e, w1⟩
  rw [hcl] at h
  simp only at h
  subst h
  simp

theorem worldAfterSecureServing_nondev (fw : Framework) (o : Options)
    (serverConfig : RecommendedConfig) (w : World) (hDev : o.ExtraOptions.DevMode = false) :
    (worldAfterSecureServing fw o serverConfig w).conns = (newFakeListener w).2.conns ∧
    (worldAfterSecureServing fw o serverConfig w).log =
      w.log ++ [Call.NewResourceManager "apis", Call.ExtraOptions_ApplyTo none,
        Call.newFakeListener (newFakeListener w).1,
        Call.SecureServing_ApplyTo (secureServingStep fw o serverConfig w).err] := by
  have hl := (newFakeListener_isPipeEnd w).2.2.2.2
  simp [worldAfterSecureServing, worldAtSecureServing, hDev, hl]

theorem isPipeEnd_of_conns (w1 w2 : World) (h : w1.conns = w2.conns) (c : Conn) :
    w1.isPipeEnd c ↔ w2.isPipeEnd c := by
  simp [World.isPipeEnd, h]

theorem closed_of_conns (w1 w2 : World) (h : w1.conns = w2.conns) (c : Conn) :
    w1.closed c = w2.closed c := by
  simp [World.closed, h]

/-- Outside dev mode, when the Extra step succeeds and the secure-serving step
succeeds and has installed the fake listener, the run closes the pair and returns
nil. -/
theorem ApplyTo_nondev_installed (fw : Framework) (o : Options)
    (serverConfig : RecommendedConfig) (w : World) (i : SecureServingInfo)
    (hDev : o.ExtraOptions.DevMode = false)
    (h1 : (extraStep fw o serverConfig).err = none)
    (h2 : (secureServingStep fw o serverConfig w).err = none)
    (hS : (secureServingStep fw o serverConfig w).SecureServing = some i)
    (hL : i.Listener = some (Listener.fake (newFakeListener w).1)) :
    (Options.ApplyTo fw o serverConfig w).outcome = Outcome.returned none ∧
    (Options.ApplyTo fw o serverConfig w).serverConfig.SecureServing = none ∧
    (Options.ApplyTo fw o serverConfig w).world.log =
      w.log ++ [Call.NewResourceManager "apis", Call.ExtraOptions_ApplyTo none,
        Call.newFakeListener (newFakeListener w).1, Call.SecureServing_ApplyTo none,
        Call.Conn_Close (newFakeListener w).1.client none,
        Call.Conn_Close (newFakeListener w).1.server none] ∧
    (Options.ApplyTo fw o serverConfig w).world.closed (newFakeListener w).1.client = true ∧
    (Options.ApplyTo fw o serverConfig w).world.closed (newFakeListener w).1.server = true := by
  obtain ⟨hconns, hlog⟩ := worldAfterSecureServing_nondev fw o serverConfig w hDev
  obtain ⟨pc, ps, -, -, -⟩ := newFakeListener_isPipeEnd w
  have hc := (isPipeEnd_of_conns _ _ hconns _).mpr pc
  have hs := (isPipeEnd_of_conns _ _ hconns _).mpr ps
  have hrun := ApplyTo_of_secureServing_ok fw o serverConfig w h1 h2
  have hDev3 : (optionsAfterSecureServing fw o serverConfig w).ExtraOptions.DevMode = false :=
    hDev
  have hS3 : (configAfterSecureServing fw o serverConfig w).SecureServing = some i := hS
  rw [applyAuthentication_nondev _ _ _ _ hDev3,
    applyTeardown_fake_pipe fw _ _ _ i (newFakeListener w).1 hDev3 hS3 hL hc hs] at hrun
  obtain ⟨-, cl, cc, cs, -, -⟩ := fakeListener_Close_pipe _ _ hc hs
  rw [hrun]
  refine ⟨rfl, rfl, ?_, cc, cs⟩
  show ((newFakeListener w).1.Close (worldAfterSecureServing fw o serverConfig w)).2.log = _
  rw [cl, hlog, h2]
  simp

/-- Outside dev mode, when the Extra step succeeds and the secure-serving step
fails, the run returns that error with the pair created and still open. -/
theorem ApplyTo_nondev_secureServing_fails (fw : Framework) (o : Options)
    (serverConfig : RecommendedConfig) (w : World) (e : Error)
    (hDev : o.ExtraOptions.DevMode = false)
    (h1 : (extraStep fw o serverConfig).err = none)
    (h2 : (secureServingStep fw o serverConfig w).err = some e) :
    (Options.ApplyTo fw o serverConfig w).outcome = Outcome.returned (some e) ∧
    (Options.ApplyTo fw o serverConfig w).world.log =
      w.log ++ [Call.NewResourceManager "apis", Call.ExtraOptions_ApplyTo none,
        Call.newFakeListener (newFakeListener w).1, Call.SecureServing_ApplyTo (some e)] ∧
    (Options.ApplyTo fw o serverConfig w).world.closed (newFakeListener w).1.client = false ∧
    (Options.ApplyTo fw o serverConfig w).world.closed (newFakeListener w).1.server = false := by
  obtain ⟨hconns, hlog⟩ := worldAfterSecureServing_nondev fw o serverConfig w hDev
  obtain ⟨-, -, cc, cs, -⟩ := newFakeListener_isPipeEnd w
  rw [ApplyTo_of_secureServing_fails fw o serverConfig w e h1 h2]
  refine ⟨rfl, ?_, ?_, ?_⟩
  · show (worldAfterSecureServing fw o serverConfig w).log = _
    rw [hlog, h2]
  · show (worldAfterSecureServing fw o serverConfig w).closed _ = false
    rw [closed_of_conns _ _ hconns]; exact cc
  · show (worldAfterSecureServing fw o serverConfig w).closed _ = false
    rw [closed_of_conns _ _ hconns]; exact cs

theorem listenerAtSecureServing_nondev (o : Options) (w : World)
    (hDev : o.ExtraOptions.DevMode = false) :
    listenerAtSecureServing o w = some (Listener.fake (newFakeListener w).1) := by
  simp [listenerAtSecureServing, hDev]

/-! ## Theorems: Options.ApplyTo -/

/-- Claim C4. Outside dev mode, if the secure-serving apply step of the framework
installs the listener of the options on the configuration whenever it succeeds, and
`ApplyTo` returns no error, then on return the `SecureServing` field of the
configuration is nil, the fake pair was created during the call, and both its
client end and its server end are closed. -/
theorem ApplyTo_nondev_success_closes_pair (fw : Framework) (o : Options)
    (serverConfig : RecommendedConfig) (w : World)
    (hDev : o.ExtraOptions.DevMode = false)
    (hInstall : ∀ (ss : SecureServingOptions) (info : Option SecureServingInfo)
      (lb : Option Fields) (l : Listener), ss.Listener = some l →
      (fw.SecureServing_ApplyTo ss info lb).err = none →
      ∃ i, (fw.SecureServing_ApplyTo ss info lb).SecureServing = some i ∧ i.Listener = some l)
    (hOk : (Options.ApplyTo fw o serverConfig w).outcome = Outcome.returned none) :
    (Options.ApplyTo fw o serverConfig w).serverConfig.SecureServing = none ∧
    Call.newFakeListener (newFakeListener w).1 ∈ callsOf fw o serverConfig w ∧
    (Options.ApplyTo fw o serverConfig w).world.closed (newFakeListener w).1.client = true ∧
    (Options.ApplyTo fw o serverConfig w).world.closed (newFakeListener w).1.server = true := by
  rcases h1 : (extraStep fw o serverConfig).err with _ | e
  · rcases h2 : (secureServingStep fw o serverConfig w).err with _ | e
    · obtain ⟨i, hS, hL⟩ := hInstall _ _ _ (Listener.fake (newFakeListener w).1)
        (listenerAtSecureServing_nondev o w hDev) h2
      obtain ⟨-, hcfg, hlog, hc, hs⟩ :=
        ApplyTo_nondev_installed fw o serverConfig w i hDev h1 h2 hS hL
      refine ⟨hcfg, ?_, hc, hs⟩
      rw [callsOf_eq _ _ _ _ _ hlog]
      simp
    · rw [ApplyTo_of_secureServing_fails fw o serverConfig w e h1 h2] at hOk
      simp at hOk
  · rw [ApplyTo_of_extra_fails fw o serverConfig w e h1] at hOk
    simp at hOk

theorem exampleFramework_installs (ss : SecureServingOptions) (info : Option SecureServingInfo)
    (lb : Option Fields) (l : Listener) (h : ss.Listener = some l)
    (_h2 : (exampleFramework.SecureServing_ApplyTo ss info lb).err = none) :
    ∃ i, (exampleFramework.SecureServing_ApplyTo ss info lb).SecureServing = some i ∧
      i.Listener = some l :=
  ⟨_, rfl, h⟩

/-- Witness for C4: the example framework, outside dev mode, on an empty world. -/
theorem ApplyTo_nondev_success_closes_pair_witness :
    (exampleOptions false "file").ExtraOptions.DevMode = false ∧
    (Options.ApplyTo exampleFramework (exampleOptions false "file") exampleConfig
      exampleWorld).outcome = Outcome.returned none ∧
    (Options.ApplyTo exampleFramework (exampleOptions false "file") exampleConfig
      exampleWorld).serverConfig.SecureServing = none ∧
    Call.newFakeListener (newFakeListener exampleWorld).1 ∈
      callsOf exampleFramework (exampleOptions false "file") exampleConfig exampleWorld ∧
    (Options.ApplyTo exampleFramework (exampleOptions false "file") exampleConfig
      exampleWorld).world.closed (newFakeListener exampleWorld).1.client = true ∧
    (Options.ApplyTo exampleFramework (exampleOptions false "file") exampleConfig
      exampleWorld).world.closed (newFakeListener exampleWorld).1.server = true :=
  ⟨rfl, by decide,
    ApplyTo_nondev_success_closes_pair exampleFramework (exampleOptions false "file")
      exampleConfig exampleWorld rfl exampleFramework_installs (by decide)⟩

/-- Counterexample to C6 as stated: outside dev mode, when the secure-serving apply
step fails, `ApplyTo` returns that error after the pair was created and with both
ends still open. -/
theorem ApplyTo_nondev_leaves_pair_open_counterexample :
    (exampleOptions false "file").ExtraOptions.DevMode = false ∧
    (Options.ApplyTo secureServingFailing (exampleOptions false "file") exampleConfig
      exampleWorld).outcome = Outcome.returned (some { msg := "secure serving" }) ∧
    (Options.ApplyTo secureServingFailing (exampleOptions false "file") exampleConfig
      exampleWorld).world.log = [Call.NewResourceManager "apis", Call.ExtraOptions_ApplyTo none,
        Call.newFakeListener { server := 0, client := 1 },
        Call.SecureServing_ApplyTo (some { msg := "secure serving" })] ∧
    (Options.ApplyTo secureServingFailing (exampleOptions false "file") exampleConfig
      exampleWorld).world.closed 1 = false ∧
    (Options.ApplyTo secureServingFailing (exampleOptions false "file") exampleConfig
      exampleWorld).world.closed 0 = false := by
  decide

/-- Claim C6, amended. Outside dev mode, once the Extra apply step has succeeded
the fake pair is created; if the secure-serving apply step then succeeds (installing
the listener of the options), `ApplyTo` closes both ends of the pair before it
returns nil; if the secure-serving apply step fails, `ApplyTo` returns that error at
once, with no `Close` call and both ends still open. -/
theorem ApplyTo_nondev_pair_closed_unless_secureServing_fails (fw : Framework) (o : Options)
    (serverConfig : RecommendedConfig) (w : World)
    (hDev : o.ExtraOptions.DevMode = false)
    (hInstall : ∀ (ss : SecureServingOptions) (info : Option SecureServingInfo)
      (lb : Option Fields) (l : Listener), ss.Listener = some l →
      (fw.SecureServing_ApplyTo ss info lb).err = none →
      ∃ i, (fw.SecureServing_ApplyTo ss info lb).SecureServing = some i ∧ i.Listener = some l)
    (hCreated : (extraStep fw o serverConfig).err = none) :
    Call.newFakeListener (newFakeListener w).1 ∈ callsOf fw o serverConfig w ∧
    ((secureServingStep fw o serverConfig w).err = none →
      (Options.ApplyTo fw o serverConfig w).outcome = Outcome.returned none ∧
      callsOf fw o serverConfig w =
        [Call.NewResourceManager "apis", Call.ExtraOptions_ApplyTo none,
          Call.newFakeListener (newFakeListener w).1, Call.SecureServing_ApplyTo none,
          Call.Conn_Close (newFakeListener w).1.client none,
          Call.Conn_Close (newFakeListener w).1.server none] ∧
      (Options.ApplyTo fw o serverConfig w).world.closed (newFakeListener w).1.client = true ∧
      (Options.ApplyTo fw o serverConfig w).world.closed (newFakeListener w).1.server = true) ∧
    (∀ e, (secureServingStep fw o serverConfig w).err = some e →
      (Options.ApplyTo fw o serverConfig w).outcome = Outcome.returned (some e) ∧
      callsOf fw o serverConfig w =
        [Call.NewResourceManager "apis", Call.ExtraOptions_ApplyTo none,
          Call.newFakeListener (newFakeListener w).1, Call.SecureServing_ApplyTo (some e)] ∧
      (Options.ApplyTo fw o serverConfig w).world.closed (newFakeListener w).1.client = false ∧
      (Options.ApplyTo fw o serverConfig w).world.closed (newFakeListener w).1.server = false)
    := by
  have key : ∀ h2 : (secureServingStep fw o serverConfig w).err = none,
      (Options.ApplyTo fw o serverConfig w).outcome = Outcome.returned none ∧
      callsOf fw o serverConfig w =
        [Call.NewResourceManager "apis", Call.ExtraOptions_ApplyTo none,
          Call.newFakeListener (newFakeListener w).1, Call.SecureServing_ApplyTo none,
          Call.Conn_Close (newFakeListener w).1.client none,
          Call.Conn_Close (newFakeListener w).1.server none] ∧
      (Options.ApplyTo fw o serverConfig w).world.closed (newFakeListener w).1.client = true ∧
      (Options.ApplyTo fw o serverConfig w).world.closed (newFakeListener w).1.server = true := by
    intro h2
    obtain ⟨i, hS, hL⟩ := hInstall _ _ _ (Listener.fake (newFakeListener w).1)
      (listenerAtSecureServing_nondev o w hDev) h2
    obtain ⟨ho, -, hlog, hc, hs⟩ :=
      ApplyTo_nondev_installed fw o serverConfig w i hDev hCreated h2 hS hL
    exact ⟨ho, callsOf_eq _ _ _ _ _ hlog, hc, hs⟩
  have key2 : ∀ e, (secureServingStep fw o serverConfig w).err = some e →
      (Options.ApplyTo fw o serverConfig w).outcome = Outcome.returned (some e) ∧
      callsOf fw o serverConfig w =
        [Call.NewResourceManager "apis", Call.ExtraOptions_ApplyTo none,
          Call.newFakeListener (newFakeListener w).1, Call.SecureServing_ApplyTo (some e)] ∧
      (Options.ApplyTo fw o serverConfig w).world.closed (newFakeListener w).1.client = false ∧
      (Options.ApplyTo fw o serverConfig w).world.closed (newFakeListener w).1.server = false := by
    intro e h2
    obtain ⟨ho, hlog, hc, hs⟩ :=
      ApplyTo_nondev_secureServing_fails fw o serverConfig w e hDev hCreated h2
    exact ⟨ho, callsOf_eq _ _ _ _ _ hlog, hc, hs⟩
  refine ⟨?_, key, key2⟩
  rcases h2 : (secureServingStep fw o serverConfig w).err with _ | e
  · rw [(key h2).2.1]; simp
  · rw [(key2 e h2).2.1]; simp

/-- Witness for the amended C6: the example framework outside dev mode on an empty
world; the secure-serving step succeeds and both ends end up closed. -/
theorem ApplyTo_nondev_pair_closed_unless_secureServing_fails_witness :
    (exampleOptions false "file").ExtraOptions.DevMode = false ∧
    (extraStep exampleFramework (exampleOptions false "file") exampleConfig).err = none ∧
    (secureServingStep exampleFramework (exampleOptions false "file") exampleConfig
      exampleWorld).err = none ∧
    (Options.ApplyTo exampleFramework (exampleOptions false "file") exampleConfig
      exampleWorld).world.closed (newFakeListener exampleWorld).1.client = true ∧
    (Options.ApplyTo exampleFramework (exampleOptions false "file") exampleConfig
      exampleWorld).world.closed (newFakeListener exampleWorld).1.server = true :=
  ⟨rfl, rfl, rfl,
    ((ApplyTo_nondev_pair_closed_unless_secureServing_fails exampleFramework
      (exampleOptions false "file") exampleConfig exampleWorld rfl exampleFramework_installs
      rfl).2.1 rfl).2.2⟩

/-- Counterexample to C9 as stated: after `Close` on a fake listener made by
`newFakeListener`, with both ends closed, `Accept` returns the server end and a nil
error. -/
theorem Accept_after_Close_counterexample :
    (closeThenAccept (newFakeListener exampleWorld).1 (newFakeListener exampleWorld).2).1
      = none ∧
    (closeThenAccept (newFakeListener exampleWorld).1
      (newFakeListener exampleWorld).2).2.2.closed (newFakeListener exampleWorld).1.client
      = true ∧
    (closeThenAccept (newFakeListener exampleWorld).1
      (newFakeListener exampleWorld).2).2.2.closed (newFakeListener exampleWorld).1.server
      = true ∧
    (closeThenAccept (newFakeListener exampleWorld).1 (newFakeListener exampleWorld).2).2.1
      = ((newFakeListener exampleWorld).1.server, none) ∧
    (closeThenAccept (newFakeListener exampleWorld).1 (newFakeListener exampleWorld).2).2.1.2
      = none := by
  decide

/-- Claim C9, amended. On every fake listener, also after `Close` has been called,
`Accept` returns the server end with a nil error and changes nothing; when that
`Close` returned nil, the connection `Accept` hands out is the closed server end. -/
theorem Accept_after_Close_returns_server (f : fakeListener) (w : World) :
    (closeThenAccept f w).2.1 = (f.server, none) ∧
    (closeThenAccept f w).2.2 = (f.Close w).2 ∧
    ((closeThenAccept f w).1 = none → (closeThenAccept f w).2.2.closed f.server = true) := by
  refine ⟨rfl, rfl, ?_⟩
  intro h
  show (f.Close w).2.closed f.server = true
  have h0 : (f.Close w).1 = none := h
  unfold fakeListener.Close at h0 ⊢
  rcases hcc : Conn.Close f.client w with ⟨e, w1⟩
  rw [hcc] at h0
  cases e with
  | some err => simp at h0
  | none => exact Conn_Close_closed_self _ _

/-- Counterexample to C10 as stated: on a fake listener made by `newFakeListener`
the first `Close` returns nil and the second `Close` returns nil as well. -/
theorem Close_twice_counterexample :
    (closeTwice exampleWorld).1 = none ∧ (closeTwice exampleWorld).2.1 = none ∧
    ¬ (∃ e, (closeTwice exampleWorld).2.1 = some e) := by
  have h : (closeTwice exampleWorld).2.1 = none := by decide
  exact ⟨by decide, h, by simp [h]⟩

/-- Claim C10, amended. On a fake listener made by `newFakeListener`, a second
`Close` after a first successful one again closes the client end and then the
server end and returns what those closes return, which for the ends of `net.Pipe`
is nil: the second call succeeds like the first. -/
theorem Close_twice_returns_nil (w : World) :
    (closeTwice w).1 = none ∧ (closeTwice w).2.1 = none ∧
    (closeTwice w).2.2.log = w.log ++
      [Call.Conn_Close (newFakeListener w).1.client none,
       Call.Conn_Close (newFakeListener w).1.server none,
       Call.Conn_Close (newFakeListener w).1.client none,
       Call.Conn_Close (newFakeListener w).1.server none] := by
  obtain ⟨pc, ps, -, -, hl⟩ := newFakeListener_isPipeEnd w
  obtain ⟨e1, l1, -, -, pc1, ps1⟩ := fakeListener_Close_pipe _ _ pc ps
  obtain ⟨e2, l2, -, -, -, -⟩ := fakeListener_Close_pipe _ _ pc1 ps1
  refine ⟨e1, e2, ?_⟩
  show ((newFakeListener w).1.Close ((newFakeListener w).1.Close (newFakeListener w).2).2).2.log
    = _
  rw [l2, l1, hl]
  simp

end options
